import Mathlib

/-!
Shallow embedding of the Safe multisig transaction-proposal subsystem of the
build-deploy-rofl-action repository (src/safe.ts, here src/unnamed/part_003)
and of the input-redaction logic of its entry point (src/main.ts).

External SDK wrappers (the Oasis rofl and roflmarket runtime-call wrappers,
the Safe protocol kit hash and signing functions, and the Safe transaction
service endpoints) are modelled as parameters of an environment structure:
the pipeline under verification is the code of this repository, which treats
those SDKs as opaque call contracts.
-/

deriving instance DecidableEq for Except

/-- Network profile entry of the NETWORKS table in safe.ts. The chain id is a
bigint in the source, modelled as a natural number. -/
structure NetworkInfo where
  runtimeId : String
  chainId : Nat
  grpcApi : String
  web3Api : String
  safeApi : String
deriving DecidableEq, Repr

/-- The mainnet entry of the NETWORKS table. -/
def mainnetInfo : NetworkInfo :=
  { runtimeId := "000000000000000000000000000000000000000000000000f80306c9858e7279"
    chainId := 23294
    grpcApi := "https://grpc.oasis.io"
    web3Api := "https://sapphire.oasis.io"
    safeApi := "https://transaction.safe.oasis.io/api" }

/-- The testnet entry of the NETWORKS table. -/
def testnetInfo : NetworkInfo :=
  { runtimeId := "000000000000000000000000000000000000000000000000a6d1e3ebf60dff6c"
    chainId := 23295
    grpcApi := "https://testnet.grpc.oasis.io"
    web3Api := "https://testnet.sapphire.oasis.io"
    safeApi := "https://transaction-testnet.safe.oasis.io/api" }

/-- The NETWORKS record of safe.ts: a two-key table from network name to
profile; lookup of any other name yields none (undefined in the source). -/
def NETWORKS (name : String) : Option NetworkInfo :=
  if name = "mainnet" then some mainnetInfo
  else if name = "testnet" then some testnetInfo
  else none

/-- Decoded CBOR call object: an optional method field (absent models a
missing field of the JavaScript object) and an opaque byte-string body. -/
structure CborCall where
  method : Option String
  body : List Nat
deriving DecidableEq, Repr

/-- Decoded top-level CBOR document: the call field may be absent. -/
structure CborDoc where
  call : Option CborCall
deriving DecidableEq, Repr

/-- State of one artifact file slot once the existence guard passed:
the file content either fails CBOR decoding or yields a document. -/
inductive ArtifactFile where
  | malformed
  | decoded (doc : CborDoc)
deriving DecidableEq, Repr

/-- TransactionFiles of safe.ts. A slot is none when the field is unset or
the file does not exist (the fs.existsSync guard fails). -/
structure TransactionFiles where
  updateFile : Option ArtifactFile := none
  deployFile : Option ArtifactFile := none
deriving DecidableEq, Repr

/-- Result of an SDK runtime-call wrapper toSubcall invocation: a target
address, call data, and an optional bigint value (absent or zero is falsy
in the source). -/
structure RawSubcall where
  toAddr : String
  data : String
  value : Option Nat
deriving DecidableEq, Repr

/-- The two Oasis SDK runtime-call wrappers used by generateTransactions:
the rofl update-call constructor and the roflmarket
instance-execute-commands constructor, each from a call body to a subcall. -/
structure Sdk where
  roflUpdateSubcall : List Nat → RawSubcall
  roflmarketExecSubcall : List Nat → RawSubcall

/-- A Safe-compatible subcall descriptor, the flat to-data-value shape of
the arrays built by generateTransactions. -/
structure SubcallDescriptor where
  toAddr : String
  data : String
  value : String
deriving DecidableEq, Repr

/-- Conversion of a wrapper subcall into the flat descriptor shape pushed by
generateTransactions: the value is stringified when truthy (a nonzero
bigint) and defaults to the string 0 otherwise. -/
def toDescriptor (sub : RawSubcall) : SubcallDescriptor :=
  { toAddr := sub.toAddr
    data := sub.data
    value :=
      match sub.value with
      | some v => if v ≠ 0 then toString v else "0"
      | none => "0" }

/-- Errors thrown by generateTransactions in safe.ts. -/
inductive GenError where
  | unknownNetwork (name : String)
  | decodeError
  | updateCallMissing
  | unsupportedMethod (method : String)
deriving DecidableEq, Repr

/-- The message of the unsupported-method error thrown by
generateTransactions for a deploy CBOR method outside roflmarket. -/
def unsupportedMethodMessage (method : String) : String :=
  "Unsupported deploy CBOR method: " ++ method ++
    ". Supported methods: rofl.Update, roflmarket.*"

/-- Processing of the update file slot in generateTransactions: a present,
decodable update artifact is always wrapped with the rofl update-call
constructor; the declared method field is never inspected on this path.
Reading the body of an absent call field throws in the source (a type
error), modelled as updateCallMissing. -/
def processUpdateFile (sdk : Sdk) : Option ArtifactFile → Except GenError (List SubcallDescriptor)
  | none => .ok []
  | some .malformed => .error .decodeError
  | some (.decoded doc) =>
    match doc.call with
    | none => .error .updateCallMissing
    | some call => .ok [toDescriptor (sdk.roflUpdateSubcall call.body)]

/-- The JavaScript startsWith test used on the deploy method, modelled on
the character list of the string. -/
def strStartsWith (s p : String) : Bool := p.data.isPrefixOf s.data

/-- Processing of the deploy file slot in generateTransactions. The source
guard requires both a truthy call field and a truthy method field; when
either is absent (or the method is the empty string, falsy in JavaScript)
the block is skipped and no descriptor is produced. A truthy method starting
with the roflmarket prefix is wrapped with the roflmarket
instance-execute-commands constructor; any other truthy method throws the
unsupported-method error. -/
def processDeployFile (sdk : Sdk) : Option ArtifactFile → Except GenError (List SubcallDescriptor)
  | none => .ok []
  | some .malformed => .error .decodeError
  | some (.decoded doc) =>
    match doc.call with
    | none => .ok []
    | some call =>
      match call.method with
      | none => .ok []
      | some method =>
        if method = "" then .ok []
        else if strStartsWith method "roflmarket." then
          .ok [toDescriptor (sdk.roflmarketExecSubcall call.body)]
        else .error (.unsupportedMethod method)

/-- generateTransactions of safe.ts: checks the network table, then
processes the update file and the deploy file in that fixed order,
accumulating the descriptors update-first. -/
def generateTransactions (sdk : Sdk) (files : TransactionFiles) (networkName : String) :
    Except GenError (List SubcallDescriptor) :=
  match NETWORKS networkName with
  | none => .error (.unknownNetwork networkName)
  | some _ =>
    match processUpdateFile sdk files.updateFile with
    | .error e => .error e
    | .ok updateTxs =>
      match processDeployFile sdk files.deployFile with
      | .error e => .error e
      | .ok deployTxs => .ok (updateTxs ++ deployTxs)

/-- Observable wallet-service interactions of proposeToSafe: a next-nonce
query (attempt-numbered), a sleep of a given number of milliseconds, and a
propose-transaction call (attempt-numbered). -/
inductive Event where
  | nonceCall (attempt : Nat)
  | sleep (ms : Nat)
  | proposeCall (attempt : Nat)
deriving DecidableEq, Repr

/-- True on a propose-transaction call event. -/
def Event.isProposeCall : Event → Bool
  | .proposeCall _ => true
  | _ => false

/-- True on a next-nonce query event. -/
def Event.isNonceCall : Event → Bool
  | .nonceCall _ => true
  | _ => false

/-- Errors surfaced by proposeToSafe. The submission constructor carries the
last underlying service error, rethrown unwrapped by the source; the
nonceResolution constructor carries the last underlying message wrapped
into the failed-to-get-nonce error. -/
inductive SafeError where
  | unknownNetwork (name : String)
  | generation (e : GenError)
  | noTransactions
  | nonceResolution (lastError : String)
  | submission (lastError : String)
  | allRetriesFailed
deriving DecidableEq, Repr

/-- SafeInputs of safe.ts. -/
structure SafeInputs where
  safePropose : Bool
  safeAddress : String
  safeProposerKey : String
  safeRpcUrl : String
  safeServiceUrl : String
  safeChainId : String
  grpcUrl : String
  deployment : String
  dryRun : Bool
deriving DecidableEq, Repr

/-- RPC URL selection of proposeToSafe: the caller-supplied value when
non-empty (truthy), otherwise the network profile default. -/
def resolvedRpcUrl (inputs : SafeInputs) (info : NetworkInfo) : String :=
  if inputs.safeRpcUrl = "" then info.web3Api else inputs.safeRpcUrl

/-- Service URL selection of proposeToSafe: the caller-supplied value when
non-empty, otherwise the network profile default. -/
def resolvedServiceUrl (inputs : SafeInputs) (info : NetworkInfo) : String :=
  if inputs.safeServiceUrl = "" then info.safeApi else inputs.safeServiceUrl

/-- Decimal parse of a chain-id string over its character list, modelling
the bigint conversion of the source; the source throws on malformed input,
modelled here as none. -/
def strToNatOpt (s : String) : Option Nat :=
  if s.data ≠ [] ∧ s.data.all (fun c => ("0123456789".data.contains c)) then
    some (s.data.foldl (fun n c => 10 * n + (c.toNat - 48)) 0)
  else none

/-- Chain id selection of proposeToSafe: the caller-supplied string parsed
as an integer when non-empty (the bigint conversion of the source, modelled
as a decimal parse), otherwise the network profile default. -/
def resolvedChainId (inputs : SafeInputs) (info : NetworkInfo) : Option Nat :=
  if inputs.safeChainId = "" then some info.chainId else strToNatOpt inputs.safeChainId

/-- Operation type attached to every batched call (a plain call). -/
inductive OperationType where
  | call
  | delegateCall
deriving DecidableEq, Repr

/-- One entry of the created Safe transaction: the descriptor with the
value defaulted once more and the operation type attached. -/
structure SafeTxEntry where
  toAddr : String
  data : String
  value : String
  operation : OperationType
deriving DecidableEq, Repr

/-- The Safe transaction assembled by createTransaction in proposeToSafe:
the mapped descriptor entries plus the resolved nonce option. -/
structure SafeTransaction where
  entries : List SafeTxEntry
  nonce : Nat
deriving DecidableEq, Repr

/-- The createTransaction argument mapping of proposeToSafe: every
descriptor keeps its fields, the value falls back to the string 0 when
empty (falsy), and the operation type is a plain call. -/
def mkSafeTransaction (txs : List SubcallDescriptor) (nonce : Nat) : SafeTransaction :=
  { entries := txs.map fun tx =>
      { toAddr := tx.toAddr
        data := tx.data
        value := if tx.value = "" then "0" else tx.value
        operation := .call }
    nonce := nonce }

/-- The nonce retry budget of proposeToSafe (nonceMaxRetries). -/
def nonceMaxRetries : Nat := 3

/-- Message of the error thrown once the nonce retry budget is exhausted,
wrapping the last underlying error message. -/
def nonceFailureMessage (lastError : String) : String :=
  "Failed to get nonce after " ++ toString nonceMaxRetries ++ " attempts: " ++ lastError

/-- The body of the nonce retry loop of proposeToSafe. The service is an
attempt-indexed oracle for the next-nonce query. A successful attempt
breaks out of the loop with the value; a failed attempt on the last allowed
attempt throws the wrapped nonce-resolution error, and otherwise sleeps for
attempt times 1000 milliseconds before the next attempt. The fuel counts
the remaining loop iterations; should the loop ever exit without breaking,
the nonce variable keeps its initial value zero (dead code in the source,
reached only at fuel zero). -/
def nonceGo (svc : Nat → Except String Nat) : Nat → Nat → List Event × Except SafeError Nat
  | 0, _ => ([], .ok 0)
  | fuel + 1, attempt =>
    match svc attempt with
    | .ok n => ([.nonceCall attempt], .ok n)
    | .error e =>
      if attempt = nonceMaxRetries then
        ([.nonceCall attempt], .error (.nonceResolution e))
      else
        let rest := nonceGo svc fuel (attempt + 1)
        (.nonceCall attempt :: .sleep (1000 * attempt) :: rest.1, rest.2)

/-- The nonce retry loop of proposeToSafe, starting at attempt 1 with a
budget of nonceMaxRetries attempts. -/
def resolveNonce (svc : Nat → Except String Nat) : List Event × Except SafeError Nat :=
  nonceGo svc nonceMaxRetries 1

/-- The submission retry bound of proposeToSafe (maxRetries, counting
additional attempts beyond the first). -/
def submitMaxRetries : Nat := 2

/-- The body of the submission retry loop of proposeToSafe. The service is
an attempt-indexed oracle for the propose-transaction call, where the
attempt number is retryCount plus one. A successful call returns the
transaction hash; on failure the retry counter is incremented, and once it
exceeds the bound the underlying error is rethrown unwrapped, otherwise the
loop sleeps for retryCount times 1000 milliseconds and retries. Exiting the
loop without returning reaches the trailing throw (dead code in the
source). -/
def submitGo (svc : Nat → Except String Unit) (safeTxHash : String) :
    Nat → Nat → List Event × Except SafeError String
  | 0, _ => ([], .error .allRetriesFailed)
  | fuel + 1, retryCount =>
    if retryCount ≤ submitMaxRetries then
      match svc (retryCount + 1) with
      | .ok _ => ([.proposeCall (retryCount + 1)], .ok safeTxHash)
      | .error e =>
        if retryCount + 1 > submitMaxRetries then
          ([.proposeCall (retryCount + 1)], .error (.submission e))
        else
          let rest := submitGo svc safeTxHash fuel (retryCount + 1)
          (.proposeCall (retryCount + 1) :: .sleep (1000 * (retryCount + 1)) :: rest.1, rest.2)
    else ([], .error .allRetriesFailed)

/-- The submission retry loop of proposeToSafe, starting at retry count 0
with fuel covering the three possible attempts. -/
def submitWithRetry (svc : Nat → Except String Unit) (safeTxHash : String) :
    List Event × Except SafeError String :=
  submitGo svc safeTxHash (submitMaxRetries + 1) 0

/-- Environment of proposeToSafe: the Oasis SDK wrappers, the wallet
service next-nonce and propose-transaction endpoints as attempt-indexed
oracles, and the Safe protocol kit canonical transaction hash. -/
structure SafeEnv where
  sdk : Sdk
  nonceService : Nat → Except String Nat
  proposeService : Nat → Except String Unit
  txHash : SafeTransaction → String

/-- proposeToSafe of safe.ts over the abstract environment, returning the
list of wallet-service interactions alongside the result. The stages mirror
the source: network lookup, subcall generation, empty-batch rejection,
URL and chain-id resolution, nonce retry loop, transaction creation and
hashing, then either the dry-run early return or the submission retry
loop. -/
def proposeToSafe (env : SafeEnv) (inputs : SafeInputs) (files : TransactionFiles)
    (networkName : String) : List Event × Except SafeError String :=
  match NETWORKS networkName with
  | none => ([], .error (.unknownNetwork networkName))
  | some networkInfo =>
    match generateTransactions env.sdk files networkName with
    | .error e => ([], .error (.generation e))
    | .ok transactions =>
      if transactions.length = 0 then
        ([], .error .noTransactions)
      else
        let _kitConfig := (resolvedRpcUrl inputs networkInfo,
          resolvedServiceUrl inputs networkInfo, resolvedChainId inputs networkInfo)
        match resolveNonce env.nonceService with
        | (nonceEvents, .error e) => (nonceEvents, .error e)
        | (nonceEvents, .ok nonce) =>
          let safeTransaction := mkSafeTransaction transactions nonce
          let safeTxHash := env.txHash safeTransaction
          if inputs.dryRun then
            (nonceEvents, .ok safeTxHash)
          else
            let submitResult := submitWithRetry env.proposeService safeTxHash
            (nonceEvents ++ submitResult.1, submitResult.2)

/-- The string sub occurs contiguously inside s. -/
def strMentions (s sub : String) : Prop := ∃ a b : String, s = a ++ (sub ++ b)

/-- Associativity of string concatenation, via the character lists. -/
theorem strAppend_assoc (a b c : String) : a ++ b ++ c = a ++ (b ++ c) := by
  apply String.ext
  simp [String.data_append]

/-- The unsupported-method error message names both supported method
families, whatever the offending method was. -/
theorem unsupportedMethodMessage_names_families (method : String) :
    strMentions (unsupportedMethodMessage method) "rofl.Update" ∧
    strMentions (unsupportedMethodMessage method) "roflmarket.*" := by
  constructor
  · refine ⟨"Unsupported deploy CBOR method: " ++ method ++ ". Supported methods: ",
      ", roflmarket.*", ?_⟩
    apply String.ext
    simp only [unsupportedMethodMessage, String.data_append, List.append_assoc]
    congr 2
  · refine ⟨"Unsupported deploy CBOR method: " ++ method ++
      ". Supported methods: rofl.Update, ", "", ?_⟩
    apply String.ext
    simp only [unsupportedMethodMessage, String.data_append, List.append_assoc]
    congr 2

/-- Test fixture: a concrete pair of SDK wrappers. -/
def sdk0 : Sdk where
  roflUpdateSubcall := fun _ => { toAddr := "0xUpdateTarget", data := "0xUpdateData", value := none }
  roflmarketExecSubcall := fun _ => { toAddr := "0xMarketTarget", data := "0xExecData", value := some 7 }

/-- Test fixture: a deploy artifact whose decoded call has no method field. -/
def deployNoMethodFiles : TransactionFiles :=
  { updateFile := none
    deployFile := some (.decoded ⟨some ⟨none, [1, 2, 3]⟩⟩) }

/-- C1 counterexample: a deploy artifact that exists and decodes, whose call
carries no method field, does not make transaction generation fail; the
generation step succeeds and silently yields zero descriptors. -/
theorem missing_method_counterexample :
    generateTransactions sdk0 deployNoMethodFiles "mainnet" = .ok [] := by decide

/-- C1 amended: a deploy artifact whose decoded call lacks a method field is
silently skipped by the generation step: the deploy slot contributes no
descriptor and raises no error, so generation returns exactly the update
slot descriptors; only a present, truthy, unrecognized method fails with
the unsupported-method error naming the two supported families. -/
theorem missing_method_silently_skipped (sdk : Sdk) (body : List Nat)
    (u : Option ArtifactFile) (ud : List SubcallDescriptor) (net : String)
    (info : NetworkInfo) (hnet : NETWORKS net = some info)
    (hu : processUpdateFile sdk u = .ok ud) :
    processDeployFile sdk (some (.decoded ⟨some ⟨none, body⟩⟩)) = .ok [] ∧
    generateTransactions sdk ⟨u, some (.decoded ⟨some ⟨none, body⟩⟩)⟩ net = .ok ud := by
  refine ⟨rfl, ?_⟩
  unfold generateTransactions
  rw [hnet]
  simp only [hu, processDeployFile, List.append_nil]

/-- Witness for the amended C1 theorem at concrete inputs. -/
theorem missing_method_silently_skipped_witness :
    processDeployFile sdk0 (some (.decoded ⟨some ⟨none, [1, 2, 3]⟩⟩)) = .ok [] ∧
    generateTransactions sdk0 ⟨none, some (.decoded ⟨some ⟨none, [1, 2, 3]⟩⟩)⟩ "mainnet"
      = .ok [] :=
  missing_method_silently_skipped sdk0 [1, 2, 3] none [] "mainnet" mainnetInfo rfl rfl

/-- C6: a decoded deploy artifact with method unknown.Foo always makes the
generation step fail with the unsupported-method error whose message names
both supported families, and a decoded deploy artifact with method
roflmarket.InstanceExecuteCmds always contributes exactly one descriptor,
built by the roflmarket instance-execute-commands wrapper. -/
theorem deploy_method_gating (sdk : Sdk) (body : List Nat)
    (u : Option ArtifactFile) (ud : List SubcallDescriptor) (net : String)
    (info : NetworkInfo) (hnet : NETWORKS net = some info)
    (hu : processUpdateFile sdk u = .ok ud) :
    generateTransactions sdk ⟨u, some (.decoded ⟨some ⟨some "unknown.Foo", body⟩⟩)⟩ net
      = .error (.unsupportedMethod "unknown.Foo") ∧
    strMentions (unsupportedMethodMessage "unknown.Foo") "rofl.Update" ∧
    strMentions (unsupportedMethodMessage "unknown.Foo") "roflmarket.*" ∧
    processDeployFile sdk (some (.decoded ⟨some ⟨some "roflmarket.InstanceExecuteCmds", body⟩⟩))
      = .ok [toDescriptor (sdk.roflmarketExecSubcall body)] ∧
    generateTransactions sdk
        ⟨u, some (.decoded ⟨some ⟨some "roflmarket.InstanceExecuteCmds", body⟩⟩)⟩ net
      = .ok (ud ++ [toDescriptor (sdk.roflmarketExecSubcall body)]) := by
  refine ⟨?_, (unsupportedMethodMessage_names_families "unknown.Foo").1,
    (unsupportedMethodMessage_names_families "unknown.Foo").2, rfl, ?_⟩
  · unfold generateTransactions
    rw [hnet]
    simp only [hu]
    rfl
  · unfold generateTransactions
    rw [hnet]
    simp only [hu]
    rfl

/-- Witness for the C6 theorem at concrete inputs. -/
theorem deploy_method_gating_witness :
    generateTransactions sdk0 ⟨none, some (.decoded ⟨some ⟨some "unknown.Foo", [1]⟩⟩)⟩ "mainnet"
      = .error (.unsupportedMethod "unknown.Foo") ∧
    strMentions (unsupportedMethodMessage "unknown.Foo") "rofl.Update" ∧
    strMentions (unsupportedMethodMessage "unknown.Foo") "roflmarket.*" ∧
    processDeployFile sdk0 (some (.decoded ⟨some ⟨some "roflmarket.InstanceExecuteCmds", [1]⟩⟩))
      = .ok [toDescriptor (sdk0.roflmarketExecSubcall [1])] ∧
    generateTransactions sdk0
        ⟨none, some (.decoded ⟨some ⟨some "roflmarket.InstanceExecuteCmds", [1]⟩⟩)⟩ "mainnet"
      = .ok ([] ++ [toDescriptor (sdk0.roflmarketExecSubcall [1])]) :=
  deploy_method_gating sdk0 [1] none [] "mainnet" mainnetInfo rfl rfl

/-- Test fixture: a deploy artifact declaring the method rofl.Update. -/
def deployRoflUpdateFiles : TransactionFiles :=
  { updateFile := none
    deployFile := some (.decoded ⟨some ⟨some "rofl.Update", [4, 5]⟩⟩) }

/-- C7 counterexample: a deploy artifact declaring the method rofl.Update is
not wrapped by the rofl update-call constructor; transaction generation
rejects it with the unsupported-method error. -/
theorem rofl_update_deploy_counterexample :
    generateTransactions sdk0 deployRoflUpdateFiles "mainnet"
      = .error (.unsupportedMethod "rofl.Update") := by decide

/-- C7 amended: every update-slot artifact is wrapped with the rofl
update-call constructor into a descriptor regardless of its declared
method, with the wrapper value stringified and defaulting to the string 0
when absent; a deploy-slot artifact declaring the method rofl.Update is
instead rejected with the unsupported-method error. -/
theorem rofl_update_dispatch (sdk : Sdk) (body : List Nat) (m : Option String)
    (sub : RawSubcall) (v : Nat) :
    processUpdateFile sdk (some (.decoded ⟨some ⟨m, body⟩⟩))
      = .ok [toDescriptor (sdk.roflUpdateSubcall body)] ∧
    (sub.value = none → toDescriptor sub
      = { toAddr := sub.toAddr, data := sub.data, value := "0" }) ∧
    (sub.value = some v → toDescriptor sub
      = { toAddr := sub.toAddr, data := sub.data, value := toString v }) ∧
    processDeployFile sdk (some (.decoded ⟨some ⟨some "rofl.Update", body⟩⟩))
      = .error (.unsupportedMethod "rofl.Update") := by
  refine ⟨rfl, ?_, ?_, rfl⟩
  · intro hv
    simp [toDescriptor, hv]
  · intro hv
    by_cases h0 : v = 0
    · subst h0
      simp [toDescriptor, hv]
      decide
    · simp [toDescriptor, hv, h0]

/-- Witness for the amended C7 theorem at concrete inputs, discharging each
hypothesis of the two value-shape conjuncts. -/
theorem rofl_update_dispatch_witness :
    processUpdateFile sdk0 (some (.decoded ⟨some ⟨some "rofl.Update", [4, 5]⟩⟩))
      = .ok [toDescriptor (sdk0.roflUpdateSubcall [4, 5])] ∧
    toDescriptor { toAddr := "t", data := "d", value := none }
      = { toAddr := "t", data := "d", value := "0" } ∧
    toDescriptor { toAddr := "u", data := "e", value := some 7 }
      = { toAddr := "u", data := "e", value := toString 7 } ∧
    processDeployFile sdk0 (some (.decoded ⟨some ⟨some "rofl.Update", [4, 5]⟩⟩))
      = .error (.unsupportedMethod "rofl.Update") := by
  have h1 := rofl_update_dispatch sdk0 [4, 5] (some "rofl.Update")
    { toAddr := "t", data := "d", value := none } 7
  have h2 := rofl_update_dispatch sdk0 [4, 5] (some "rofl.Update")
    { toAddr := "u", data := "e", value := some 7 } 7
  exact ⟨h1.1, h1.2.1 rfl, h2.2.2.1 rfl, h1.2.2.2⟩

/-- C8: with both artifacts present and decodable (the deploy one declaring
a roflmarket method), the generated descriptor list is exactly the update
descriptor followed by the deploy descriptor; generation is a pure function
of its arguments, so the order cannot depend on file-system iteration. -/
theorem batch_order (sdk : Sdk) (ub db : List Nat) (um : Option String) (m : String)
    (net : String) (info : NetworkInfo) (hnet : NETWORKS net = some info)
    (hm : strStartsWith m "roflmarket." = true) :
    generateTransactions sdk
      { updateFile := some (.decoded ⟨some ⟨um, ub⟩⟩)
        deployFile := some (.decoded ⟨some ⟨some m, db⟩⟩) } net
      = .ok [toDescriptor (sdk.roflUpdateSubcall ub),
             toDescriptor (sdk.roflmarketExecSubcall db)] := by
  have hm0 : ¬ m = "" := by
    rintro rfl
    exact absurd hm (by decide)
  unfold generateTransactions
  rw [hnet]
  simp [processUpdateFile, processDeployFile, hm0, hm]

/-- Witness for the C8 theorem at concrete inputs. -/
theorem batch_order_witness :
    generateTransactions sdk0
      { updateFile := some (.decoded ⟨some ⟨none, [9]⟩⟩)
        deployFile := some (.decoded ⟨some ⟨some "roflmarket.InstanceExecuteCmds", [8]⟩⟩) }
      "testnet"
      = .ok [toDescriptor (sdk0.roflUpdateSubcall [9]),
             toDescriptor (sdk0.roflmarketExecSubcall [8])] :=
  batch_order sdk0 [9] [8] none "roflmarket.InstanceExecuteCmds" "testnet" testnetInfo
    (by decide) (by decide)

/-- Test fixture: an environment whose services always succeed. -/
def env0 : SafeEnv where
  sdk := sdk0
  nonceService := fun _ => .ok 5
  proposeService := fun _ => .ok ()
  txHash := fun _ => "0xSafeTxHash"

/-- Test fixture: an update artifact only. -/
def updateOnlyFiles : TransactionFiles :=
  { updateFile := some (.decoded ⟨some ⟨none, [9]⟩⟩)
    deployFile := none }

/-- Test fixture: inputs with dry run enabled and no overrides. -/
def dryRunInputs : SafeInputs where
  safePropose := true
  safeAddress := "0xSafe"
  safeProposerKey := "0xKey"
  safeRpcUrl := ""
  safeServiceUrl := ""
  safeChainId := ""
  grpcUrl := ""
  deployment := ""
  dryRun := true

/-- Test fixture: inputs in live mode with an RPC override and a chain-id
override but no service URL override. -/
def liveInputs : SafeInputs where
  safePropose := true
  safeAddress := "0xSafe"
  safeProposerKey := "0xKey"
  safeRpcUrl := "https://custom.rpc"
  safeServiceUrl := ""
  safeChainId := "99"
  grpcUrl := ""
  deployment := ""
  dryRun := false

/-- C9: network resolution yields no profile for any name other than
mainnet and testnet (in particular devnet and localnet) and the proposal
pipeline surfaces the unknown-network error for such a name; the two
supported profiles carry distinct runtime identifiers and distinct chain
ids; and each caller-supplied override (RPC URL, service URL, chain id)
takes precedence over the profile default exactly when non-empty. -/
theorem network_resolution (name : String) (inputs : SafeInputs) (info : NetworkInfo)
    (env : SafeEnv) (files : TransactionFiles)
    (hm : name ≠ "mainnet") (ht : name ≠ "testnet") :
    NETWORKS name = none ∧
    proposeToSafe env inputs files name = ([], .error (.unknownNetwork name)) ∧
    NETWORKS "devnet" = none ∧
    NETWORKS "localnet" = none ∧
    NETWORKS "mainnet" = some mainnetInfo ∧
    NETWORKS "testnet" = some testnetInfo ∧
    mainnetInfo.runtimeId ≠ testnetInfo.runtimeId ∧
    mainnetInfo.chainId ≠ testnetInfo.chainId ∧
    (inputs.safeRpcUrl ≠ "" → resolvedRpcUrl inputs info = inputs.safeRpcUrl) ∧
    (inputs.safeRpcUrl = "" → resolvedRpcUrl inputs info = info.web3Api) ∧
    (inputs.safeServiceUrl ≠ "" → resolvedServiceUrl inputs info = inputs.safeServiceUrl) ∧
    (inputs.safeServiceUrl = "" → resolvedServiceUrl inputs info = info.safeApi) ∧
    (inputs.safeChainId ≠ "" → resolvedChainId inputs info = strToNatOpt inputs.safeChainId) ∧
    (inputs.safeChainId = "" → resolvedChainId inputs info = some info.chainId) := by
  have hN : NETWORKS name = none := by simp [NETWORKS, hm, ht]
  refine ⟨hN, ?_, by decide, by decide, by decide, by decide, by decide, by decide,
    ?_, ?_, ?_, ?_, ?_, ?_⟩
  · unfold proposeToSafe
    rw [hN]
  · intro h
    simp [resolvedRpcUrl, h]
  · intro h
    simp [resolvedRpcUrl, h]
  · intro h
    simp [resolvedServiceUrl, h]
  · intro h
    simp [resolvedServiceUrl, h]
  · intro h
    simp [resolvedChainId, h]
  · intro h
    simp [resolvedChainId, h]

/-- Witness for the C9 theorem: devnet is rejected end to end, and the
overrides of the live fixture inputs are honoured. -/
theorem network_resolution_witness :
    NETWORKS "devnet" = none ∧
    proposeToSafe env0 liveInputs updateOnlyFiles "devnet"
      = ([], .error (.unknownNetwork "devnet")) ∧
    resolvedRpcUrl liveInputs mainnetInfo = "https://custom.rpc" ∧
    resolvedServiceUrl liveInputs mainnetInfo = mainnetInfo.safeApi ∧
    resolvedChainId liveInputs mainnetInfo = some 99 := by
  have h := network_resolution "devnet" liveInputs mainnetInfo env0 updateOnlyFiles
    (by decide) (by decide)
  refine ⟨h.1, h.2.1, ?_, ?_, ?_⟩
  · exact h.2.2.2.2.2.2.2.2.1 (by decide)
  · exact h.2.2.2.2.2.2.2.2.2.2.2.1 rfl
  · have h99 := h.2.2.2.2.2.2.2.2.2.2.2.2.1 (by decide)
    rw [h99]
    decide

/-- Every event of the nonce retry loop is a nonce query or a sleep, never
a propose-transaction call. -/
theorem nonceGo_no_propose (svc : Nat → Except String Nat) (fuel attempt : Nat) :
    ((nonceGo svc fuel attempt).1.all fun e => ! e.isProposeCall) = true := by
  induction fuel generalizing attempt with
  | zero => rfl
  | succ fuel ih =>
    unfold nonceGo
    cases hsvc : svc attempt with
    | ok n => rfl
    | error e =>
      dsimp only
      by_cases hatt : attempt = nonceMaxRetries
      · rw [if_pos hatt]
        rfl
      · rw [if_neg hatt]
        simp only [List.all_cons, Bool.and_eq_true]
        exact ⟨rfl, rfl, ih (attempt + 1)⟩

/-- C2: with dry run enabled, the pipeline emits no propose-transaction
call on any input (the wallet service is never asked to record anything),
and on the successful path it returns the computed transaction hash, which
is non-empty whenever the SDK hash is. -/
theorem dry_run_no_propose (env : SafeEnv) (inputs : SafeInputs)
    (files : TransactionFiles) (net : String) (txs : List SubcallDescriptor) (n : Nat)
    (hdry : inputs.dryRun = true) :
    ((proposeToSafe env inputs files net).1.all fun e => ! e.isProposeCall) = true ∧
    (generateTransactions env.sdk files net = .ok txs → txs ≠ [] →
      (resolveNonce env.nonceService).2 = .ok n →
      env.txHash (mkSafeTransaction txs n) ≠ "" →
      (proposeToSafe env inputs files net).2 = .ok (env.txHash (mkSafeTransaction txs n)) ∧
      env.txHash (mkSafeTransaction txs n) ≠ "") := by
  constructor
  · unfold proposeToSafe
    cases hN : NETWORKS net with
    | none => rfl
    | some info =>
      cases hg : generateTransactions env.sdk files net with
      | error e => rfl
      | ok txs2 =>
        by_cases hlen : txs2.length = 0
        · simp [hlen]
        · have hevs : ((resolveNonce env.nonceService).1.all fun e => ! e.isProposeCall)
              = true := nonceGo_no_propose env.nonceService nonceMaxRetries 1
          rcases hr : resolveNonce env.nonceService with ⟨evs, r⟩
          rw [hr] at hevs
          cases r with
          | error e => simp [hlen, hr, hevs]
          | ok nn => simp [hlen, hr, hdry, hevs]
  · intro hg htxs hn hne
    cases hN : NETWORKS net with
    | none =>
      unfold generateTransactions at hg
      rw [hN] at hg
      exact absurd hg (by simp)
    | some info =>
      have hlen : ¬ txs.length = 0 := by
        simpa using htxs
      rcases hr : resolveNonce env.nonceService with ⟨evs, r⟩
      rw [hr] at hn
      simp only at hn
      subst hn
      unfold proposeToSafe
      rw [hN, hg]
      simp [hlen, hr, hdry, hne]

/-- Witness for the C2 theorem at concrete inputs. -/
theorem dry_run_no_propose_witness :
    ((proposeToSafe env0 dryRunInputs updateOnlyFiles "mainnet").1.all
      fun e => ! e.isProposeCall) = true ∧
    (proposeToSafe env0 dryRunInputs updateOnlyFiles "mainnet").2 = .ok "0xSafeTxHash" ∧
    ("0xSafeTxHash" : String) ≠ "" := by
  have h := dry_run_no_propose env0 dryRunInputs updateOnlyFiles "mainnet"
    [toDescriptor (sdk0.roflUpdateSubcall [9])] 5 rfl
  have h2 := h.2 (by decide) (by decide) (by decide) (by decide)
  exact ⟨h.1, h2.1, h2.2⟩

/-- C3: when the generation step yields zero descriptors, the pipeline
fails with the proposal-build error and its event trace is empty: the
wallet service is neither queried for a nonce nor asked to record a
proposal. -/
theorem empty_batch_rejected (env : SafeEnv) (inputs : SafeInputs)
    (files : TransactionFiles) (net : String)
    (hg : generateTransactions env.sdk files net = .ok []) :
    proposeToSafe env inputs files net = ([], .error .noTransactions) := by
  cases hN : NETWORKS net with
  | none =>
    unfold generateTransactions at hg
    rw [hN] at hg
    exact absurd hg (by simp)
  | some info =>
    unfold proposeToSafe
    rw [hN, hg]
    simp

/-- Witness for the C3 theorem: with neither artifact present the pipeline
stops with the proposal-build error having touched nothing. -/
theorem empty_batch_rejected_witness :
    proposeToSafe env0 dryRunInputs ⟨none, none⟩ "mainnet"
      = ([], .error .noTransactions) :=
  empty_batch_rejected env0 dryRunInputs ⟨none, none⟩ "mainnet" (by decide)

/-- C4: the nonce resolver queries the service at most three times and
returns the first successful value immediately; the sleeps between failed
attempts are 1000 then 2000 milliseconds; after three failures it fails
with the nonce-resolution error wrapping the last underlying error, the
pipeline aborts with that error, and no proposal is ever submitted. -/
theorem nonce_retry_policy (svc : Nat → Except String Nat) (n : Nat) (e1 e2 e3 : String)
    (env : SafeEnv) (inputs : SafeInputs) (files : TransactionFiles) (net : String)
    (txs : List SubcallDescriptor) :
    (svc 1 = .ok n → resolveNonce svc = ([.nonceCall 1], .ok n)) ∧
    (svc 1 = .error e1 → svc 2 = .ok n →
      resolveNonce svc = ([.nonceCall 1, .sleep 1000, .nonceCall 2], .ok n)) ∧
    (svc 1 = .error e1 → svc 2 = .error e2 → svc 3 = .ok n →
      resolveNonce svc
        = ([.nonceCall 1, .sleep 1000, .nonceCall 2, .sleep 2000, .nonceCall 3], .ok n)) ∧
    (svc 1 = .error e1 → svc 2 = .error e2 → svc 3 = .error e3 →
      resolveNonce svc
        = ([.nonceCall 1, .sleep 1000, .nonceCall 2, .sleep 2000, .nonceCall 3],
            .error (.nonceResolution e3))) ∧
    ((resolveNonce svc).1.countP Event.isNonceCall ≤ 3) ∧
    (env.nonceService 1 = .error e1 → env.nonceService 2 = .error e2 →
      env.nonceService 3 = .error e3 →
      generateTransactions env.sdk files net = .ok txs → txs ≠ [] →
      (proposeToSafe env inputs files net).2 = .error (.nonceResolution e3) ∧
      ((proposeToSafe env inputs files net).1.all fun e => ! e.isProposeCall) = true) := by
  have key : ∀ (f : Nat → Except String Nat) (a b c : String),
      f 1 = .error a → f 2 = .error b → f 3 = .error c →
      resolveNonce f
        = ([.nonceCall 1, .sleep 1000, .nonceCall 2, .sleep 2000, .nonceCall 3],
            .error (.nonceResolution c)) := by
    intro f a b c h1 h2 h3
    simp [resolveNonce, nonceGo, h1, h2, h3, nonceMaxRetries]
  refine ⟨?_, ?_, ?_, key svc e1 e2 e3, ?_, ?_⟩
  · intro h1
    simp [resolveNonce, nonceGo, h1]
  · intro h1 h2
    simp [resolveNonce, nonceGo, h1, h2, nonceMaxRetries]
  · intro h1 h2 h3
    simp [resolveNonce, nonceGo, h1, h2, h3, nonceMaxRetries]
  · cases h1 : svc 1 with
    | ok n1 =>
      have hr : resolveNonce svc = ([.nonceCall 1], .ok n1) := by
        simp [resolveNonce, nonceGo, h1]
      rw [hr]
      norm_num [List.countP_cons, List.countP_nil, Event.isNonceCall]
    | error ex1 =>
      cases h2 : svc 2 with
      | ok n2 =>
        have hr : resolveNonce svc = ([.nonceCall 1, .sleep 1000, .nonceCall 2], .ok n2) := by
          simp [resolveNonce, nonceGo, h1, h2, nonceMaxRetries]
        rw [hr]
        norm_num [List.countP_cons, List.countP_nil, Event.isNonceCall]
      | error ex2 =>
        cases h3 : svc 3 with
        | ok n3 =>
          have hr : resolveNonce svc
              = ([.nonceCall 1, .sleep 1000, .nonceCall 2, .sleep 2000, .nonceCall 3],
                  .ok n3) := by
            simp [resolveNonce, nonceGo, h1, h2, h3, nonceMaxRetries]
          rw [hr]
          norm_num [List.countP_cons, List.countP_nil, Event.isNonceCall]
        | error ex3 =>
          rw [key svc ex1 ex2 ex3 h1 h2 h3]
          norm_num [List.countP_cons, List.countP_nil, Event.isNonceCall]
  · intro h1 h2 h3 hg htxs
    have hr := key env.nonceService e1 e2 e3 h1 h2 h3
    cases hN : NETWORKS net with
    | none =>
      unfold generateTransactions at hg
      rw [hN] at hg
      exact absurd hg (by simp)
    | some info =>
      have hlen : ¬ txs.length = 0 := by simpa using htxs
      constructor
      · unfold proposeToSafe
        rw [hN, hg]
        simp [hlen, hr]
      · unfold proposeToSafe
        rw [hN, hg]
        simp [hlen, hr, Event.isProposeCall]

/-- Test fixture: nonce endpoint failing on the first two attempts then
succeeding. -/
def flakyNonceEnv : SafeEnv where
  sdk := sdk0
  nonceService := fun a => if a ≤ 2 then .error ("nonce fail " ++ toString a) else .ok 42
  proposeService := fun _ => .ok ()
  txHash := fun _ => "0xSafeTxHash"

/-- Test fixture: nonce endpoint failing on every attempt. -/
def downNonceEnv : SafeEnv where
  sdk := sdk0
  nonceService := fun a => .error ("nonce fail " ++ toString a)
  proposeService := fun _ => .ok ()
  txHash := fun _ => "0xSafeTxHash"

/-- Witness for the C4 theorem: the fail-fail-succeed service is called
exactly three times with the two backoff sleeps and yields the value; the
always-failing service bounds its calls by three and aborts the pipeline
with the wrapped last error and no propose call. -/
theorem nonce_retry_policy_witness :
    resolveNonce flakyNonceEnv.nonceService
      = ([.nonceCall 1, .sleep 1000, .nonceCall 2, .sleep 2000, .nonceCall 3], .ok 42) ∧
    (resolveNonce downNonceEnv.nonceService).1.countP Event.isNonceCall ≤ 3 ∧
    (proposeToSafe downNonceEnv dryRunInputs updateOnlyFiles "mainnet").2
      = .error (.nonceResolution "nonce fail 3") ∧
    ((proposeToSafe downNonceEnv dryRunInputs updateOnlyFiles "mainnet").1.all
      fun e => ! e.isProposeCall) = true := by
  have hA := nonce_retry_policy flakyNonceEnv.nonceService 42
    "nonce fail 1" "nonce fail 2" "nonce fail 3" downNonceEnv dryRunInputs
    updateOnlyFiles "mainnet" [toDescriptor (sdk0.roflUpdateSubcall [9])]
  have hB := nonce_retry_policy downNonceEnv.nonceService 0
    "nonce fail 1" "nonce fail 2" "nonce fail 3" downNonceEnv dryRunInputs
    updateOnlyFiles "mainnet" [toDescriptor (sdk0.roflUpdateSubcall [9])]
  have hPipe := hB.2.2.2.2.2 (by decide) (by decide) (by decide) (by decide) (by decide)
  exact ⟨hA.2.2.1 (by decide) (by decide) (by decide), hB.2.2.2.2.1, hPipe.1, hPipe.2⟩

/-- C5: in live mode the submission loop calls the propose endpoint at most
three times, sleeping 1000 then 2000 milliseconds between failed attempts;
the first success returns the transaction hash; after the third failure the
last underlying error propagates unwrapped; and the pipeline in live mode
is exactly the nonce trace followed by this submission loop. -/
theorem submission_retry_policy (svc : Nat → Except String Unit) (txh : String)
    (e1 e2 e3 : String) (env : SafeEnv) (inputs : SafeInputs) (files : TransactionFiles)
    (net : String) (txs : List SubcallDescriptor) (n : Nat) :
    (svc 1 = .ok () → submitWithRetry svc txh = ([.proposeCall 1], .ok txh)) ∧
    (svc 1 = .error e1 → svc 2 = .ok () →
      submitWithRetry svc txh
        = ([.proposeCall 1, .sleep 1000, .proposeCall 2], .ok txh)) ∧
    (svc 1 = .error e1 → svc 2 = .error e2 → svc 3 = .ok () →
      submitWithRetry svc txh
        = ([.proposeCall 1, .sleep 1000, .proposeCall 2, .sleep 2000, .proposeCall 3],
            .ok txh)) ∧
    (svc 1 = .error e1 → svc 2 = .error e2 → svc 3 = .error e3 →
      submitWithRetry svc txh
        = ([.proposeCall 1, .sleep 1000, .proposeCall 2, .sleep 2000, .proposeCall 3],
            .error (.submission e3))) ∧
    ((submitWithRetry svc txh).1.countP Event.isProposeCall ≤ 3) ∧
    (inputs.dryRun = false → generateTransactions env.sdk files net = .ok txs → txs ≠ [] →
      (resolveNonce env.nonceService).2 = .ok n →
      proposeToSafe env inputs files net
        = ((resolveNonce env.nonceService).1
            ++ (submitWithRetry env.proposeService (env.txHash (mkSafeTransaction txs n))).1,
          (submitWithRetry env.proposeService (env.txHash (mkSafeTransaction txs n))).2)) := by
  refine ⟨?_, ?_, ?_, ?_, ?_, ?_⟩
  · intro h1
    simp [submitWithRetry, submitGo, h1]
  · intro h1 h2
    simp [submitWithRetry, submitGo, h1, h2, submitMaxRetries]
  · intro h1 h2 h3
    simp [submitWithRetry, submitGo, h1, h2, h3, submitMaxRetries]
  · intro h1 h2 h3
    simp [submitWithRetry, submitGo, h1, h2, h3, submitMaxRetries]
  · cases h1 : svc 1 with
    | ok u1 =>
      have hr : submitWithRetry svc txh = ([.proposeCall 1], .ok txh) := by
        simp [submitWithRetry, submitGo, h1]
      rw [hr]
      norm_num [List.countP_cons, List.countP_nil, Event.isProposeCall]
    | error ex1 =>
      cases h2 : svc 2 with
      | ok u2 =>
        have hr : submitWithRetry svc txh
            = ([.proposeCall 1, .sleep 1000, .proposeCall 2], .ok txh) := by
          simp [submitWithRetry, submitGo, h1, h2, submitMaxRetries]
        rw [hr]
        norm_num [List.countP_cons, List.countP_nil, Event.isProposeCall]
      | error ex2 =>
        cases h3 : svc 3 with
        | ok u3 =>
          have hr : submitWithRetry svc txh
              = ([.proposeCall 1, .sleep 1000, .proposeCall 2, .sleep 2000, .proposeCall 3],
                  .ok txh) := by
            simp [submitWithRetry, submitGo, h1, h2, h3, submitMaxRetries]
          rw [hr]
          norm_num [List.countP_cons, List.countP_nil, Event.isProposeCall]
        | error ex3 =>
          have hr : submitWithRetry svc txh
              = ([.proposeCall 1, .sleep 1000, .proposeCall 2, .sleep 2000, .proposeCall 3],
                  .error (.submission ex3)) := by
            simp [submitWithRetry, submitGo, h1, h2, h3, submitMaxRetries]
          rw [hr]
          norm_num [List.countP_cons, List.countP_nil, Event.isProposeCall]
  · intro hdry hg htxs hn
    cases hN : NETWORKS net with
    | none =>
      unfold generateTransactions at hg
      rw [hN] at hg
      exact absurd hg (by simp)
    | some info =>
      have hlen : ¬ txs.length = 0 := by simpa using htxs
      rcases hr : resolveNonce env.nonceService with ⟨evs, r⟩
      rw [hr] at hn
      simp only at hn
      subst hn
      unfold proposeToSafe
      rw [hN, hg]
      simp [hlen, hr, hdry]

/-- Test fixture: propose endpoint failing on the first two attempts then
succeeding. -/
def flakyProposeEnv : SafeEnv where
  sdk := sdk0
  nonceService := fun _ => .ok 5
  proposeService := fun a => if a ≤ 2 then .error ("submit fail " ++ toString a) else .ok ()
  txHash := fun _ => "0xSafeTxHash"

/-- Test fixture: propose endpoint failing on every attempt. -/
def downProposeEnv : SafeEnv where
  sdk := sdk0
  nonceService := fun _ => .ok 5
  proposeService := fun _ => .error "submit down"
  txHash := fun _ => "0xSafeTxHash"

/-- Witness for the C5 theorem: the fail-fail-succeed propose endpoint is
called exactly three times with the two backoff sleeps and the hash is
returned; the always-failing endpoint propagates its last error unwrapped;
and the live pipeline is the nonce trace followed by the submission loop. -/
theorem submission_retry_policy_witness :
    submitWithRetry flakyProposeEnv.proposeService "0xSafeTxHash"
      = ([.proposeCall 1, .sleep 1000, .proposeCall 2, .sleep 2000, .proposeCall 3],
          .ok "0xSafeTxHash") ∧
    submitWithRetry downProposeEnv.proposeService "0xSafeTxHash"
      = ([.proposeCall 1, .sleep 1000, .proposeCall 2, .sleep 2000, .proposeCall 3],
          .error (.submission "submit down")) ∧
    (submitWithRetry downProposeEnv.proposeService "0xSafeTxHash").1.countP
      Event.isProposeCall ≤ 3 ∧
    proposeToSafe downProposeEnv liveInputs updateOnlyFiles "mainnet"
      = ((resolveNonce downProposeEnv.nonceService).1
          ++ (submitWithRetry downProposeEnv.proposeService
              (downProposeEnv.txHash (mkSafeTransaction
                [toDescriptor (sdk0.roflUpdateSubcall [9])] 5))).1,
        (submitWithRetry downProposeEnv.proposeService
            (downProposeEnv.txHash (mkSafeTransaction
              [toDescriptor (sdk0.roflUpdateSubcall [9])] 5))).2) := by
  have hA := submission_retry_policy flakyProposeEnv.proposeService "0xSafeTxHash"
    "submit fail 1" "submit fail 2" "submit fail 3" downProposeEnv liveInputs
    updateOnlyFiles "mainnet" [toDescriptor (sdk0.roflUpdateSubcall [9])] 5
  have hB := submission_retry_policy downProposeEnv.proposeService "0xSafeTxHash"
    "submit down" "submit down" "submit down" downProposeEnv liveInputs
    updateOnlyFiles "mainnet" [toDescriptor (sdk0.roflUpdateSubcall [9])] 5
  refine ⟨hA.2.2.1 (by decide) (by decide) (by decide),
    hB.2.2.2.1 (by decide) (by decide) (by decide),
    hB.2.2.2.2.1,
    hB.2.2.2.2.2 rfl (by decide) (by decide) (by decide)⟩

/-- The inputs object collected by the run function of main.ts. String
inputs default to the empty string and boolean inputs to false, matching
the action-input getters on unset inputs. -/
structure ActionInputs where
  cliVersion : String := ""
  checkUpdates : Bool := false
  createUpdatePr : Bool := false
  config : String := ""
  deployment : String := ""
  encrypted : Bool := false
  feeDenom : String := ""
  force : Bool := false
  format : String := ""
  gasLimit : String := ""
  gasPrice : String := ""
  machine : String := ""
  network : String := ""
  noContainer : Bool := false
  noUpdateManifest : Bool := false
  updateManifest : Bool := false
  nonce : String := ""
  offer : String := ""
  offline : Bool := false
  onlyValidate : Bool := false
  output : String := ""
  outputFile : String := ""
  provider : String := ""
  replaceMachine : Bool := false
  showOffers : Bool := false
  term : String := ""
  termCount : String := ""
  unsigned : Bool := false
  verbose : Bool := false
  verify : Bool := false
  walletAccount : String := ""
  walletImport : Bool := false
  walletAlgorithm : String := ""
  walletNumber : String := ""
  walletSecret : String := ""
  wipeStorage : Bool := false
  workingDirectory : String := ""
  skipBuild : Bool := false
  skipUpdate : Bool := false
  skipDeploy : Bool := false
  updateOutputFile : String := ""
  deployOutputFile : String := ""
  safeAddress : String := ""
  safeProposerKey : String := ""
  safeRpcUrl : String := ""
  safeServiceUrl : String := ""
  safeChainId : String := ""
  safeDryRun : Bool := false
deriving DecidableEq, Repr

/-- The redacted inputs object logged by main.ts: the collected inputs with
the proposer key and the wallet secret replaced by three asterisks. -/
def redactedInputs (i : ActionInputs) : ActionInputs :=
  { i with safeProposerKey := "***", walletSecret := "***" }

/-- The wallet import argument list built by main.ts, with each optional
flag included exactly when its input is non-empty (truthy). -/
def walletImportArgs (i : ActionInputs) : List String :=
  ["wallet", "import", i.walletAccount, "--yes"]
    ++ (if i.walletAlgorithm = "" then [] else ["--algorithm", i.walletAlgorithm])
    ++ (if i.config = "" then [] else ["--config", i.config])
    ++ (if i.walletNumber = "" then [] else ["--number", i.walletNumber])
    ++ (if i.walletSecret = "" then [] else ["--secret", i.walletSecret])

/-- The secret-masking map of main.ts applied over the argument list: an
element is replaced by three asterisks exactly when the element before it
in the original list is the secret flag. The previous original element is
threaded through the recursion. -/
def redactGo : Option String → List String → List String
  | _, [] => []
  | prev, a :: rest =>
    (if prev = some "--secret" then "***" else a) :: redactGo (some a) rest

/-- The redacted wallet import argument list logged by main.ts; the first
element has no predecessor. -/
def redactedWalletArgs (args : List String) : List String :=
  redactGo none args

/-- Test fixture: concrete collected inputs with a non-empty wallet secret. -/
def inputsWithSecret : ActionInputs :=
  { walletAccount := "ci-account"
    walletImport := true
    walletSecret := "hunter2"
    safeProposerKey := "0xProposerKey" }

/-- C10 counterexample: two runs differing only in the secret values (the
wallet secret present in one run and empty in the other) produce different
redacted wallet-import debug lists, because the secret flag and its masked
value appear only when the secret is non-empty. -/
theorem redaction_counterexample :
    redactedWalletArgs (walletImportArgs inputsWithSecret)
      ≠ redactedWalletArgs (walletImportArgs { inputsWithSecret with walletSecret := "" }) ∧
    redactedWalletArgs (walletImportArgs inputsWithSecret)
      = ["wallet", "import", "ci-account", "--yes", "--secret", "***"] ∧
    redactedWalletArgs (walletImportArgs { inputsWithSecret with walletSecret := "" })
      = ["wallet", "import", "ci-account", "--yes"] := by
  refine ⟨?_, by decide, by decide⟩
  decide

/-- The redaction of an argument list ending in the secret flag and one
final value does not depend on that value. -/
theorem redactGo_append_secret (P : List String) (prev : Option String) (x y : String) :
    redactGo prev (P ++ ["--secret", x]) = redactGo prev (P ++ ["--secret", y]) := by
  induction P generalizing prev with
  | nil => simp [redactGo]
  | cons a rest ih =>
    simp only [List.cons_append, redactGo, List.cons.injEq]
    exact ⟨trivial, ih (some a)⟩

/-- C10 amended: the logged inputs object masks the proposer key and the
wallet secret unconditionally, so it is identical across runs differing
only in those two values; the redacted wallet-import argument list masks
the argument after the secret flag, so it is identical across such runs
provided the wallet secret is non-empty in both (when the secret is empty
in exactly one run, the flag pair itself appears in only one list). -/
theorem redaction_noninterference (i : ActionInputs) (k s : String)
    (hs : s ≠ "") (hi : i.walletSecret ≠ "") :
    redactedInputs { i with safeProposerKey := k, walletSecret := s } = redactedInputs i ∧
    redactedWalletArgs (walletImportArgs { i with safeProposerKey := k, walletSecret := s })
      = redactedWalletArgs (walletImportArgs i) := by
  constructor
  · rfl
  · have hw : ∀ (j : ActionInputs), ¬ j.walletSecret = "" →
        walletImportArgs j = (["wallet", "import", j.walletAccount, "--yes"]
          ++ (if j.walletAlgorithm = "" then [] else ["--algorithm", j.walletAlgorithm])
          ++ (if j.config = "" then [] else ["--config", j.config])
          ++ (if j.walletNumber = "" then [] else ["--number", j.walletNumber]))
          ++ ["--secret", j.walletSecret] := by
      intro j hj
      unfold walletImportArgs
      rw [if_neg hj]
    unfold redactedWalletArgs
    rw [hw { i with safeProposerKey := k, walletSecret := s } hs, hw i hi]
    exact redactGo_append_secret _ none s i.walletSecret

/-- Witness for the amended C10 theorem at concrete inputs. -/
theorem redaction_noninterference_witness :
    redactedInputs { inputsWithSecret with
        safeProposerKey := "0xOtherKey", walletSecret := "different" }
      = redactedInputs inputsWithSecret ∧
    redactedWalletArgs (walletImportArgs { inputsWithSecret with
        safeProposerKey := "0xOtherKey", walletSecret := "different" })
      = redactedWalletArgs (walletImportArgs inputsWithSecret) :=
  redaction_noninterference inputsWithSecret "0xOtherKey" "different"
    (by decide) (by decide)
